import Mathlib

/-!
Verification of the check-and-record engine of the `status` repository.

The embedding models `src/lib/checker.js` (probe executor with retry),
the history persistence of `src/index.js` (`saveResults`), and the
metrics helpers of `src/lib/utils.js` (`calculateTrend`,
`getServiceHistory`) plus the uptime / last-incident computations of
`src/index.js` (`generateServiceCard`, `generateServicePages`).

Conventions of the embedding:
- network interactions are oracles: a map from the attempt number to
  the event the runtime would deliver for that attempt (an HTTP
  response or a thrown error, a TCP connect / timeout / error, a DNS
  resolution or failure), each carrying the wall-clock duration of the
  attempt;
- time is an explicit rational clock threaded through the retry loop;
  `Date.now() - start` becomes a subtraction of clock values;
- JS numbers are rationals, JS strings are `String`, absent object
  fields are `Option`;
- the recursion `if (attempt < RETRIES) return check…(service, attempt+1)`
  is translated structurally: the extra `fuel` argument carries
  `RETRIES - attempt`, the number of retries still allowed, so
  `attempt < RETRIES` is exactly `fuel ≠ 0` along the recursion.
-/

namespace StatusCheck

/-- Status values `'up' | 'down' | 'maintenance'` used by the checker and history. -/
inductive Status where
  | up
  | down
  | maintenance
deriving DecidableEq, Repr

/-- Normalized service descriptor (`normalizeService` in `src/index.js`);
kind-specific fields are optional because JS objects simply lack them. -/
structure Service where
  id : String
  name : String
  type : Option String
  url : Option String
  host : Option String
  port : Option Nat
  domain : Option String
  method : Option String
  expectedStatus : Nat
  timeout : ℚ
  maintenance : Option String
deriving DecidableEq, Repr

/-- Result shape returned by `checkHTTP` / `checkTCP` / `checkDNS` in
`src/lib/checker.js`: `{ status, statusCode, responseTime, error }`. -/
structure ProbeResult where
  status : Status
  statusCode : Option Nat
  responseTime : ℚ
  error : Option String
deriving DecidableEq, Repr

/-- Full outcome object returned by `checkUrl` in `src/lib/checker.js`. -/
structure CheckOutcome where
  id : String
  name : String
  url : Option String
  status : Status
  statusCode : Option Nat
  responseTime : ℚ
  timestamp : String
  error : Option String
  maintenance : Option String
deriving DecidableEq, Repr

/-- Oracle event for one `fetch` attempt in `checkHTTP`: either a response
with a status code, or a thrown error (timeout / abort / transport),
with the duration of the attempt in milliseconds. -/
inductive AttemptResult where
  | response (code : Nat) (dur : ℚ)
  | failure (msg : String) (dur : ℚ)
deriving DecidableEq, Repr

/-- Oracle event for one TCP connection attempt in `checkTCP`. -/
inductive TCPEvent where
  | connected (dur : ℚ)
  | timedOut (dur : ℚ)
  | failed (msg : String) (dur : ℚ)
deriving DecidableEq, Repr

/-- Oracle event for one `dns.resolve` attempt in `checkDNS`. -/
inductive DNSEvent where
  | resolved (dur : ℚ)
  | failed (msg : String) (dur : ℚ)
deriving DecidableEq, Repr

/-- Which probe function `checkUrl` dispatched to. -/
inductive ProbeKind where
  | http
  | tcp
  | dns
deriving DecidableEq, Repr

/-- Constant `RETRIES = 3` of `src/lib/checker.js`. -/
def RETRIES : Nat := 3

/-- Constant `RETRY_DELAY = 2000` (milliseconds) of `src/lib/checker.js`. -/
def RETRY_DELAY : ℚ := 2000

/-- Body of `checkHTTP` (`src/lib/checker.js` lines 7-37).  `start` is read
from the clock at the top of each invocation; a response returns
immediately with `status` decided by `response.status === service.expectedStatus`;
a thrown error retries after `RETRY_DELAY` while retries remain (`fuel`
carries `RETRIES - attempt`), else returns `down` with the message.  The
second component is the clock at completion. -/
def checkHTTPFrom (service : Service) (env : Nat → AttemptResult) :
    Nat → Nat → ℚ → ProbeResult × ℚ
  | fuel, attempt, clock =>
    let start := clock
    match env attempt with
    | AttemptResult.response code dur =>
        ({ status := if code = service.expectedStatus then Status.up else Status.down,
           statusCode := some code,
           responseTime := clock + dur - start,
           error := none }, clock + dur)
    | AttemptResult.failure msg dur =>
        match fuel with
        | Nat.succ fuel' =>
            checkHTTPFrom service env fuel' (attempt + 1) (clock + dur + RETRY_DELAY)
        | Nat.zero =>
            ({ status := Status.down,
               statusCode := none,
               responseTime := clock + dur - start,
               error := some msg }, clock + dur)

/-- `checkHTTP(service, attempt)` starting with a zero clock. -/
def checkHTTP (service : Service) (env : Nat → AttemptResult) (attempt : Nat) :
    ProbeResult × ℚ :=
  checkHTTPFrom service env (RETRIES - attempt) attempt 0

/-- Body of `checkTCP` (`src/lib/checker.js` lines 39-93): connect means `up`,
timeout and error retry while retries remain, else `down` with
`'Connection timeout'` resp. the error message. -/
def checkTCPFrom (service : Service) (env : Nat → TCPEvent) :
    Nat → Nat → ℚ → ProbeResult × ℚ
  | fuel, attempt, clock =>
    let start := clock
    match env attempt with
    | TCPEvent.connected dur =>
        ({ status := Status.up, statusCode := none,
           responseTime := clock + dur - start, error := none }, clock + dur)
    | TCPEvent.timedOut dur =>
        match fuel with
        | Nat.succ fuel' =>
            checkTCPFrom service env fuel' (attempt + 1) (clock + dur + RETRY_DELAY)
        | Nat.zero =>
            ({ status := Status.down, statusCode := none,
               responseTime := clock + dur - start,
               error := some "Connection timeout" }, clock + dur)
    | TCPEvent.failed msg dur =>
        match fuel with
        | Nat.succ fuel' =>
            checkTCPFrom service env fuel' (attempt + 1) (clock + dur + RETRY_DELAY)
        | Nat.zero =>
            ({ status := Status.down, statusCode := none,
               responseTime := clock + dur - start,
               error := some msg }, clock + dur)

/-- `checkTCP(service, attempt)` starting with a zero clock. -/
def checkTCP (service : Service) (env : Nat → TCPEvent) (attempt : Nat) :
    ProbeResult × ℚ :=
  checkTCPFrom service env (RETRIES - attempt) attempt 0

/-- Body of `checkDNS` (`src/lib/checker.js` lines 95-117): any successful
resolution is `up`; a failure retries while retries remain, else `down`. -/
def checkDNSFrom (service : Service) (env : Nat → DNSEvent) :
    Nat → Nat → ℚ → ProbeResult × ℚ
  | fuel, attempt, clock =>
    let start := clock
    match env attempt with
    | DNSEvent.resolved dur =>
        ({ status := Status.up, statusCode := none,
           responseTime := clock + dur - start, error := none }, clock + dur)
    | DNSEvent.failed msg dur =>
        match fuel with
        | Nat.succ fuel' =>
            checkDNSFrom service env fuel' (attempt + 1) (clock + dur + RETRY_DELAY)
        | Nat.zero =>
            ({ status := Status.down, statusCode := none,
               responseTime := clock + dur - start,
               error := some msg }, clock + dur)

/-- `checkDNS(service, attempt)` starting with a zero clock. -/
def checkDNS (service : Service) (env : Nat → DNSEvent) (attempt : Nat) :
    ProbeResult × ℚ :=
  checkDNSFrom service env (RETRIES - attempt) attempt 0

/-- JS truthiness of an optional string field: present and non-empty. -/
def truthyStr : Option String → Bool
  | none => false
  | some s => !(s == "")

/-- The endpoint string interpolated by `checkUrl` for the outcome's `url`
field (`src/lib/checker.js` lines 146-153). -/
def endpointOf (service : Service) : Option String :=
  if service.type = some "tcp" then
    some ((service.host.getD "") ++ ":" ++ toString (service.port.getD 0))
  else if service.type = some "dns" then
    service.domain
  else
    service.url

/-- `checkUrl` (`src/lib/checker.js` lines 119-165).  The maintenance gate
returns a synthesized outcome at once; otherwise the function dispatches on
`service.type` (`'tcp'`, `'dns'`, anything else → HTTP).  The second
component records which probe functions were invoked, in order. -/
def checkUrl (service : Service) (envH : Nat → AttemptResult) (envT : Nat → TCPEvent)
    (envD : Nat → DNSEvent) (nowISO : String) (attempt : Nat) :
    CheckOutcome × List ProbeKind :=
  if truthyStr service.maintenance then
    ({ id := service.id, name := service.name,
       url := service.url.orElse (fun _ => service.host.orElse (fun _ => service.domain)),
       status := Status.maintenance, statusCode := none, responseTime := 0,
       timestamp := nowISO, error := none,
       maintenance := service.maintenance }, [])
  else
    let picked : ProbeResult × ProbeKind :=
      if service.type = some "tcp" then ((checkTCP service envT attempt).1, ProbeKind.tcp)
      else if service.type = some "dns" then ((checkDNS service envD attempt).1, ProbeKind.dns)
      else ((checkHTTP service envH attempt).1, ProbeKind.http)
    ({ id := service.id, name := service.name, url := endpointOf service,
       status := picked.1.status, statusCode := picked.1.statusCode,
       responseTime := picked.1.responseTime, timestamp := nowISO,
       error := picked.1.error, maintenance := none }, [picked.2])

/-- Entry of a monthly history file, as written by `saveResults`
(`src/index.js` lines 194-200): `{ timestamp, status, statusCode,
responseTime, error }`. -/
structure HistoryEntry where
  timestamp : String
  status : Status
  statusCode : Option Nat
  responseTime : ℚ
  error : Option String
deriving DecidableEq, Repr

/-- History record built by `saveResults` from a check result and the batch
time `now` (`src/index.js` lines 194-200): the stored `timestamp` is
`now.toISOString()`, the remaining fields are copied from the result. -/
def mkHistoryEntry (result : CheckOutcome) (nowISO : String) : HistoryEntry :=
  { timestamp := nowISO, status := result.status, statusCode := result.statusCode,
    responseTime := result.responseTime, error := result.error }

/-- Append-and-cap step of `saveResults` on one monthly partition
(`src/index.js` lines 193-201): `history.push(entry)` then
`if (history.length > 4320) history = history.slice(-4320)`, where
`slice(-4320)` keeps the last 4320 entries. -/
def appendHistory (history : List HistoryEntry) (entry : HistoryEntry) :
    List HistoryEntry :=
  let h := history ++ [entry]
  if 4320 < h.length then h.drop (h.length - 4320) else h

/-- Byte-wise lexicographic order on code points, the comparison JS
`Array.prototype.sort()` applies to the month file names (plain ASCII
`YYYY-MM.json` strings, where code-unit and code-point order agree). -/
def listCharLeb : List Char → List Char → Bool
  | [], _ => true
  | _ :: _, [] => false
  | a :: as, b :: bs =>
    if a.val < b.val then true
    else if b.val < a.val then false
    else listCharLeb as bs

/-- String comparison used to model `files.sort()`. -/
def strLeb (a b : String) : Bool := listCharLeb a.data b.data

/-- Insertion step of the sorting model. -/
def insertSorted (s : String) : List String → List String
  | [] => [s]
  | t :: ts => if strLeb s t then s :: t :: ts else t :: insertSorted s ts

/-- Model of `files.sort()`: sort the file names ascending. -/
def sortStrings (l : List String) : List String := l.foldr insertSorted []

/-- Concatenation-map used to model `Array.prototype.flatMap`. -/
def concatMap (f : α → List β) : List α → List β
  | [] => []
  | a :: l => f a ++ concatMap f l

/-- On-disk history directory of one service: one `(fileName, entries)` pair
per monthly partition file, in unspecified directory order.  The store
holds the parsed `.json` partition files (`saveResults` writes nothing
else into `api/<id>/history/`). -/
abbrev HistoryStore := List (String × List HistoryEntry)

/-- `getServiceHistory` (`src/lib/utils.js` lines 36-41): list the partition
files, sort them, REVERSE the sorted list, and flat-map their parsed
contents in that order. -/
def getServiceHistory (store : HistoryStore) : List HistoryEntry :=
  let files := (sortStrings (store.map Prod.fst)).reverse
  concatMap (fun f => (Option.map Prod.snd (store.find? (fun p => p.1 == f))).getD []) files

/-- The `lastIncident` computation of `generateServicePages`
(`src/index.js` line 415): `allHistory.find(s => s.status === 'down')`. -/
def lastIncident (allHistory : List HistoryEntry) : Option HistoryEntry :=
  allHistory.find? (fun s => s.status == Status.down)

/-- Uptime percentage of `generateServiceCard` / `generateServicePages`
(`src/index.js` lines 285-288 and 409-412): filter out maintenance
entries, count `'up'` among the remainder, and divide; `100` when no
non-maintenance entry exists.  The JS code formats this value with
`toFixed(1)` resp. `toFixed(2)` for display; the rational value itself is
modelled. -/
def uptimePct (allHistory : List HistoryEntry) : ℚ :=
  let activeHistory := allHistory.filter (fun h => !(h.status == Status.maintenance))
  let uptimeCount := (activeHistory.filter (fun h => h.status == Status.up)).length
  if 0 < activeHistory.length then
    (uptimeCount : ℚ) / (activeHistory.length : ℚ) * 100
  else 100

/-- Model of `Array.prototype.slice(-n)`: the last `n` elements (the whole
list when it is shorter than `n`). -/
def takeLast (n : Nat) (l : List HistoryEntry) : List HistoryEntry :=
  l.drop (l.length - n)

/-- The `recentChecks` sub-expression of `calculateTrend`
(`src/lib/utils.js` line 26): `history.filter(h => h.status === 'up').slice(-10)`. -/
def recentUps (history : List HistoryEntry) : List HistoryEntry :=
  takeLast 10 (history.filter (fun h => h.status == Status.up))

/-- The `avgRecent` sub-expression of `calculateTrend`
(`src/lib/utils.js` line 28): mean `responseTime` of `recentUps`. -/
def avgRecentOf (history : List HistoryEntry) : ℚ :=
  ((recentUps history).foldl (fun sum h => sum + h.responseTime) 0) /
    ((recentUps history).length : ℚ)

/-- `calculateTrend` (`src/lib/utils.js` lines 24-34).  The JS constant
`0.15` is the exact decimal `15/100` here. -/
def calculateTrend (history : List HistoryEntry) (currentTime : ℚ) : String :=
  if history.length < 5 then "→"
  else
    let recentChecks := recentUps history
    if recentChecks.length < 5 then "→"
    else
      let avgRecent := (recentChecks.foldl (fun sum h => sum + h.responseTime) 0) /
        (recentChecks.length : ℚ)
      let diff := currentTime - avgRecent
      let threshold := avgRecent * (15 / 100)
      if threshold < diff then "↑"
      else if diff < -threshold then "↓"
      else "→"

/-! Concrete fixtures used by witnesses and counterexamples. -/

/-- Sample HTTP service descriptor (defaults of `normalizeService`). -/
def svcHTTP : Service :=
  { id := "web", name := "Web", type := none, url := some "https://example.com",
    host := none, port := none, domain := none, method := some "GET",
    expectedStatus := 200, timeout := 10000, maintenance := none }

/-- Sample service descriptor flagged under maintenance. -/
def svcMaint : Service :=
  { id := "db", name := "DB", type := none, url := some "https://db.example.com",
    host := none, port := none, domain := none, method := some "GET",
    expectedStatus := 200, timeout := 10000, maintenance := some "planned upgrade" }

/-- Sample service descriptor with an unknown `type` string. -/
def svcGopher : Service :=
  { id := "g", name := "Gopher", type := some "gopher", url := some "gopher://example.com",
    host := none, port := none, domain := none, method := none,
    expectedStatus := 200, timeout := 10000, maintenance := none }

/-- Sample HTTP service descriptor with a 100 ms timeout. -/
def svcHTTPQuick : Service :=
  { id := "api", name := "API", type := none, url := some "https://api.example.com",
    host := none, port := none, domain := none, method := some "GET",
    expectedStatus := 200, timeout := 100, maintenance := none }

/-- HTTP oracle where every attempt is aborted at the 100 ms timeout. -/
def envHFail : Nat → AttemptResult :=
  fun _ => AttemptResult.failure "This operation was aborted" 100

/-- HTTP oracle: attempt 1 answers 500, later attempts answer 200. -/
def envMismatchThenUp : Nat → AttemptResult :=
  fun n => if n = 1 then AttemptResult.response 500 10 else AttemptResult.response 200 10

/-- HTTP oracle: attempt 1 answers 500, later attempts throw. -/
def envMismatchThenFail : Nat → AttemptResult :=
  fun n => if n = 1 then AttemptResult.response 500 10 else AttemptResult.failure "boom" 10

/-- TCP oracle where every attempt times out instantly. -/
def envTIdle : Nat → TCPEvent := fun _ => TCPEvent.timedOut 0

/-- DNS oracle where every attempt fails instantly. -/
def envDIdle : Nat → DNSEvent := fun _ => DNSEvent.failed "ENOTFOUND" 0

/-- C1: for every service descriptor with the `maintenance` field set,
`checkUrl` returns an outcome with status `'maintenance'`, `responseTime`
0, `statusCode` null and `error` null, and invokes no probe function
(the probe-call log is empty, so `checkHTTP` / `checkTCP` / `checkDNS`
are never consulted). -/
theorem checkUrl_maintenance_gate (service : Service) (envH : Nat → AttemptResult)
    (envT : Nat → TCPEvent) (envD : Nat → DNSEvent) (nowISO : String) (attempt : Nat)
    (h : truthyStr service.maintenance = true) :
    (checkUrl service envH envT envD nowISO attempt).1.status = Status.maintenance ∧
    (checkUrl service envH envT envD nowISO attempt).1.responseTime = 0 ∧
    (checkUrl service envH envT envD nowISO attempt).1.statusCode = none ∧
    (checkUrl service envH envT envD nowISO attempt).1.error = none ∧
    (checkUrl service envH envT envD nowISO attempt).2 = [] := by
  simp [checkUrl, h]

/-- Witness for C1 at a concrete maintenance service. -/
theorem checkUrl_maintenance_gate_witness :
    (checkUrl svcMaint envHFail envTIdle envDIdle "2025-01-01T00:00:00.000Z" 1).1.status
        = Status.maintenance ∧
    (checkUrl svcMaint envHFail envTIdle envDIdle "2025-01-01T00:00:00.000Z" 1).1.responseTime = 0 ∧
    (checkUrl svcMaint envHFail envTIdle envDIdle "2025-01-01T00:00:00.000Z" 1).1.statusCode = none ∧
    (checkUrl svcMaint envHFail envTIdle envDIdle "2025-01-01T00:00:00.000Z" 1).1.error = none ∧
    (checkUrl svcMaint envHFail envTIdle envDIdle "2025-01-01T00:00:00.000Z" 1).2 = [] :=
  checkUrl_maintenance_gate svcMaint envHFail envTIdle envDIdle
    "2025-01-01T00:00:00.000Z" 1 rfl

/-- C10: for every service descriptor not under maintenance whose `type`
is absent or any string other than `'tcp'` and `'dns'`, `checkUrl`
dispatches to the HTTP probe: the probe-call log is exactly `[http]` and
the outcome's result fields come from `checkHTTP`.  No probe kind is
rejected. -/
theorem checkUrl_defaults_to_http (service : Service) (envH : Nat → AttemptResult)
    (envT : Nat → TCPEvent) (envD : Nat → DNSEvent) (nowISO : String) (attempt : Nat)
    (hm : truthyStr service.maintenance = false)
    (ht : ¬ service.type = some "tcp") (hd : ¬ service.type = some "dns") :
    (checkUrl service envH envT envD nowISO attempt).2 = [ProbeKind.http] ∧
    (checkUrl service envH envT envD nowISO attempt).1.status
        = (checkHTTP service envH attempt).1.status ∧
    (checkUrl service envH envT envD nowISO attempt).1.statusCode
        = (checkHTTP service envH attempt).1.statusCode ∧
    (checkUrl service envH envT envD nowISO attempt).1.responseTime
        = (checkHTTP service envH attempt).1.responseTime ∧
    (checkUrl service envH envT envD nowISO attempt).1.error
        = (checkHTTP service envH attempt).1.error := by
  simp [checkUrl, hm, ht, hd]

/-- Witness for C10 at a service whose `type` is the unknown string `'gopher'`. -/
theorem checkUrl_defaults_to_http_witness :
    (checkUrl svcGopher envHFail envTIdle envDIdle "2025-01-01T00:00:00.000Z" 1).2
        = [ProbeKind.http] ∧
    (checkUrl svcGopher envHFail envTIdle envDIdle "2025-01-01T00:00:00.000Z" 1).1.status
        = (checkHTTP svcGopher envHFail 1).1.status ∧
    (checkUrl svcGopher envHFail envTIdle envDIdle "2025-01-01T00:00:00.000Z" 1).1.statusCode
        = (checkHTTP svcGopher envHFail 1).1.statusCode ∧
    (checkUrl svcGopher envHFail envTIdle envDIdle "2025-01-01T00:00:00.000Z" 1).1.responseTime
        = (checkHTTP svcGopher envHFail 1).1.responseTime ∧
    (checkUrl svcGopher envHFail envTIdle envDIdle "2025-01-01T00:00:00.000Z" 1).1.error
        = (checkHTTP svcGopher envHFail 1).1.error :=
  checkUrl_defaults_to_http svcGopher envHFail envTIdle envDIdle
    "2025-01-01T00:00:00.000Z" 1 rfl (by simp [svcGopher]) (by simp [svcGopher])

/-! Unfolding lemmas for the HTTP retry loop. -/

/-- A responding attempt returns at once, whatever fuel remains. -/
theorem checkHTTPFrom_response (service : Service) (env : Nat → AttemptResult)
    (fuel attempt : Nat) (clock : ℚ) (code : Nat) (dur : ℚ)
    (h : env attempt = AttemptResult.response code dur) :
    checkHTTPFrom service env fuel attempt clock =
      ({ status := if code = service.expectedStatus then Status.up else Status.down,
         statusCode := some code,
         responseTime := clock + dur - clock,
         error := none }, clock + dur) := by
  rw [checkHTTPFrom, h]

/-- A failing attempt with fuel left sleeps `RETRY_DELAY` and retries. -/
theorem checkHTTPFrom_fail_step (service : Service) (env : Nat → AttemptResult)
    (fuel attempt : Nat) (clock : ℚ) (msg : String) (dur : ℚ)
    (h : env attempt = AttemptResult.failure msg dur) :
    checkHTTPFrom service env (fuel + 1) attempt clock =
      checkHTTPFrom service env fuel (attempt + 1) (clock + dur + RETRY_DELAY) := by
  rw [checkHTTPFrom, h]

/-- A failing attempt with no fuel left returns the final `down` result. -/
theorem checkHTTPFrom_fail_last (service : Service) (env : Nat → AttemptResult)
    (attempt : Nat) (clock : ℚ) (msg : String) (dur : ℚ)
    (h : env attempt = AttemptResult.failure msg dur) :
    checkHTTPFrom service env 0 attempt clock =
      ({ status := Status.down, statusCode := none,
         responseTime := clock + dur - clock,
         error := some msg }, clock + dur) := by
  rw [checkHTTPFrom, h]

/-- C5 counterexample: expected status 200, attempt 1 answers 500.  The
probe returns `down` with `statusCode = 500` immediately; the result is
identical whether later attempts would succeed (`envMismatchThenUp`) or
throw (`envMismatchThenFail`), so no re-attempt takes place — had the
mismatch been retried, `envMismatchThenUp` would have produced `up` on
attempt 2. -/
theorem checkHTTP_mismatch_not_retried_cex :
    (checkHTTP svcHTTP envMismatchThenUp 1).1.status = Status.down ∧
    (checkHTTP svcHTTP envMismatchThenUp 1).1.statusCode = some 500 ∧
    checkHTTP svcHTTP envMismatchThenUp 1 = checkHTTP svcHTTP envMismatchThenFail 1 := by
  have hUp := checkHTTPFrom_response svcHTTP envMismatchThenUp (RETRIES - 1) 1 0 500 10 rfl
  have hFail := checkHTTPFrom_response svcHTTP envMismatchThenFail (RETRIES - 1) 1 0 500 10 rfl
  refine ⟨?_, ?_, ?_⟩
  · rw [checkHTTP, hUp]
    simp [svcHTTP]
  · rw [checkHTTP, hUp]
  · rw [checkHTTP, hUp, checkHTTP, hFail]

/-- C5 amended: a response whose status code differs from
`expectedStatus` is not retried — `checkHTTP` returns `down` at once on
that same attempt, with the actual status code recorded, `error = null`,
and `responseTime` the duration of that single attempt, regardless of
what later attempts would have produced. -/
theorem checkHTTP_mismatch_immediate_down (service : Service)
    (env : Nat → AttemptResult) (attempt code : Nat) (dur : ℚ)
    (henv : env attempt = AttemptResult.response code dur)
    (hcode : ¬ code = service.expectedStatus) :
    (checkHTTP service env attempt).1.status = Status.down ∧
    (checkHTTP service env attempt).1.statusCode = some code ∧
    (checkHTTP service env attempt).1.error = none ∧
    (checkHTTP service env attempt).1.responseTime = dur := by
  rw [checkHTTP, checkHTTPFrom_response service env _ attempt 0 code dur henv]
  refine ⟨by simp [hcode], rfl, rfl, by ring⟩

/-- Witness for the amended C5 at attempt 1 of `envMismatchThenUp`. -/
theorem checkHTTP_mismatch_immediate_down_witness :
    (checkHTTP svcHTTP envMismatchThenUp 1).1.status = Status.down ∧
    (checkHTTP svcHTTP envMismatchThenUp 1).1.statusCode = some 500 ∧
    (checkHTTP svcHTTP envMismatchThenUp 1).1.error = none ∧
    (checkHTTP svcHTTP envMismatchThenUp 1).1.responseTime = 10 :=
  checkHTTP_mismatch_immediate_down svcHTTP envMismatchThenUp 1 500 10 rfl
    (by simp [svcHTTP])

/-- C2 counterexample: with all three attempts failing after 100 ms each,
the completion clock shows a total elapsed time of
3 × 100 + 2 × `RETRY_DELAY` = 4300 ms, but the reported `responseTime` is
only 100 ms — the duration of the final attempt — which is not at least
`2 * RETRY_DELAY` = 4000 ms, contradicting the claim that `responseTime`
spans from the start of the first attempt and includes the retry delays. -/
theorem checkHTTP_responseTime_resets_cex :
    (checkHTTP svcHTTPQuick envHFail 1).1.status = Status.down ∧
    (checkHTTP svcHTTPQuick envHFail 1).1.responseTime = 100 ∧
    (checkHTTP svcHTTPQuick envHFail 1).2 = 4300 ∧
    ¬ (2 * RETRY_DELAY ≤ (checkHTTP svcHTTPQuick envHFail 1).1.responseTime) := by
  have step : checkHTTP svcHTTPQuick envHFail 1 =
      ({ status := Status.down, statusCode := none,
         responseTime := (0 + 100 + RETRY_DELAY + 100 + RETRY_DELAY) + 100 -
           (0 + 100 + RETRY_DELAY + 100 + RETRY_DELAY),
         error := some "This operation was aborted" },
       (0 + 100 + RETRY_DELAY + 100 + RETRY_DELAY) + 100) := by
    rw [checkHTTP]
    rw [show RETRIES - 1 = 1 + 1 from rfl]
    rw [checkHTTPFrom_fail_step svcHTTPQuick envHFail 1 1 0 _ 100 rfl]
    rw [show (1 : Nat) = 0 + 1 from rfl]
    rw [checkHTTPFrom_fail_step svcHTTPQuick envHFail 0 2 _ _ 100 rfl]
    rw [checkHTTPFrom_fail_last svcHTTPQuick envHFail 3 _ _ 100 rfl]
  rw [step]
  norm_num [RETRY_DELAY]

/-- C2 amended: when all three attempts fail, `start` is re-read at the top
of each recursive call, so the reported `responseTime` is the duration of
the final attempt alone, while the true elapsed time (the completion
clock) is the sum of the three attempt durations plus the two
inter-attempt delays. -/
theorem checkHTTP_all_fail_responseTime (service : Service)
    (env : Nat → AttemptResult) (m1 m2 m3 : String) (d1 d2 d3 : ℚ)
    (h1 : env 1 = AttemptResult.failure m1 d1)
    (h2 : env 2 = AttemptResult.failure m2 d2)
    (h3 : env 3 = AttemptResult.failure m3 d3) :
    (checkHTTP service env 1).1.status = Status.down ∧
    (checkHTTP service env 1).1.error = some m3 ∧
    (checkHTTP service env 1).1.responseTime = d3 ∧
    (checkHTTP service env 1).2 = d1 + d2 + d3 + 2 * RETRY_DELAY := by
  have step : checkHTTP service env 1 =
      ({ status := Status.down, statusCode := none,
         responseTime := (0 + d1 + RETRY_DELAY + d2 + RETRY_DELAY) + d3 -
           (0 + d1 + RETRY_DELAY + d2 + RETRY_DELAY),
         error := some m3 },
       (0 + d1 + RETRY_DELAY + d2 + RETRY_DELAY) + d3) := by
    rw [checkHTTP]
    rw [show RETRIES - 1 = 1 + 1 from rfl]
    rw [checkHTTPFrom_fail_step service env 1 1 0 m1 d1 h1]
    rw [show (1 : Nat) = 0 + 1 from rfl]
    rw [checkHTTPFrom_fail_step service env 0 2 _ m2 d2 h2]
    rw [checkHTTPFrom_fail_last service env 3 _ m3 d3 h3]
  rw [step]
  refine ⟨rfl, rfl, by ring, by ring⟩

/-- Witness for the amended C2 with three 100 ms failures. -/
theorem checkHTTP_all_fail_responseTime_witness :
    (checkHTTP svcHTTPQuick envHFail 1).1.status = Status.down ∧
    (checkHTTP svcHTTPQuick envHFail 1).1.error = some "This operation was aborted" ∧
    (checkHTTP svcHTTPQuick envHFail 1).1.responseTime = 100 ∧
    (checkHTTP svcHTTPQuick envHFail 1).2 = 100 + 100 + 100 + 2 * RETRY_DELAY :=
  checkHTTP_all_fail_responseTime svcHTTPQuick envHFail
    "This operation was aborted" "This operation was aborted" "This operation was aborted"
    100 100 100 rfl rfl rfl

/-! History fixtures. -/

/-- Sample `'up'` history entry. -/
def entUp : HistoryEntry :=
  { timestamp := "2025-01-01T00:00:00.000Z", status := Status.up,
    statusCode := some 200, responseTime := 100, error := none }

/-- Sample `'down'` history entry. -/
def entDown : HistoryEntry :=
  { timestamp := "2025-01-01T00:10:00.000Z", status := Status.down,
    statusCode := none, responseTime := 30, error := some "connect ECONNREFUSED" }

/-- Sample `'maintenance'` history entry. -/
def entMaint : HistoryEntry :=
  { timestamp := "2025-01-01T00:20:00.000Z", status := Status.maintenance,
    statusCode := none, responseTime := 0, error := none }

/-- Series of 5 `'up'`, 3 `'down'` and 2 `'maintenance'` entries. -/
def series532 : List HistoryEntry :=
  List.replicate 5 entUp ++ List.replicate 3 entDown ++ List.replicate 2 entMaint

/-- C4: appending to a monthly partition that already holds 4320 entries
leaves exactly 4320: the oldest entry is dropped and the remainder keeps
its order, with the new entry at the end — i.e. the 4320 most recent of
the 4321. -/
theorem appendHistory_cap (history : List HistoryEntry) (entry : HistoryEntry)
    (h : history.length = 4320) :
    appendHistory history entry = history.drop 1 ++ [entry] ∧
    (appendHistory history entry).length = 4320 := by
  have hc : 4320 < (history ++ [entry]).length := by simp [h]
  have h1 : appendHistory history entry
      = (history ++ [entry]).drop ((history ++ [entry]).length - 4320) := by
    simp only [appendHistory]
    rw [if_pos hc]
  have hd : (history ++ [entry]).length - 4320 = 1 := by simp [h]
  have h2 : (history ++ [entry]).drop 1 = history.drop 1 ++ [entry] := by
    rw [List.drop_append_eq_append_drop]
    have : 1 - history.length = 0 := by omega
    rw [this]
    rfl
  constructor
  · rw [h1, hd, h2]
  · rw [h1, hd, h2]
    simp [h]

/-- Witness for C4 at a concrete partition of 4320 entries. -/
theorem appendHistory_cap_witness :
    appendHistory (List.replicate 4320 entUp) entDown
        = (List.replicate 4320 entUp).drop 1 ++ [entDown] ∧
    (appendHistory (List.replicate 4320 entUp) entDown).length = 4320 :=
  appendHistory_cap (List.replicate 4320 entUp) entDown (by rw [List.length_replicate])

/-- C3: the uptime percentage ignores maintenance entries entirely —
removing (or inserting) a maintenance entry anywhere leaves it unchanged —
and equals `up-count / non-maintenance-count × 100`: the 5-up/3-down/2-maintenance
series gives `62.5` and an all-maintenance series gives `100`. -/
theorem uptimePct_excludes_maintenance :
    (∀ (h₁ h₂ : List HistoryEntry) (e : HistoryEntry),
        e.status = Status.maintenance →
        uptimePct (h₁ ++ e :: h₂) = uptimePct (h₁ ++ h₂)) ∧
    uptimePct series532 = 125 / 2 ∧
    uptimePct (List.replicate 2 entMaint) = 100 := by
  refine ⟨?_, ?_, ?_⟩
  · intro h₁ h₂ e he
    simp [uptimePct, List.filter_append, he]
  · simp +decide [uptimePct, series532, entUp, entDown, entMaint, List.replicate]
    norm_num
  · simp +decide [uptimePct, entMaint, List.replicate]

/-- Witness for the quantified part of C3: inserting one maintenance entry
into the empty series leaves the uptime unchanged. -/
theorem uptimePct_excludes_maintenance_witness :
    uptimePct ([] ++ entMaint :: []) = uptimePct ([] ++ []) :=
  uptimePct_excludes_maintenance.1 [] [] entMaint rfl

/-- Ten `'up'` entries at 100 ms each. -/
def hist10 : List HistoryEntry := List.replicate 10 entUp

/-- Evaluation of `calculateTrend` once both insufficient-signal guards are
passed: the three-way comparison of `currentTime` against the recent
average with the 15 % relative threshold. -/
theorem calculateTrend_eval (history : List HistoryEntry) (cur : ℚ)
    (h5 : ¬ history.length < 5) (hr5 : ¬ (recentUps history).length < 5) :
    calculateTrend history cur =
      (if avgRecentOf history * (15 / 100) < cur - avgRecentOf history then "↑"
       else if cur - avgRecentOf history < -(avgRecentOf history * (15 / 100)) then "↓"
       else "→") := by
  rw [calculateTrend]
  simp only [avgRecentOf]
  rw [if_neg h5, if_neg hr5]

/-- C8: with fewer than 5 `'up'` entries the trend is `'→'` regardless of
latencies; otherwise, writing `avgRecent` for the mean latency of the up
to 10 most recent `'up'` entries (nonnegative for real latency data),
`cur > avgRecent·1.15` gives `'↑'`, `cur < avgRecent·0.85` gives `'↓'`,
and everything in between gives `'→'`; in particular 10 `'up'` entries at
100 ms give `'↑'` at 116, `'↓'` at 84 and `'→'` at 100. -/
theorem calculateTrend_thresholds :
    (∀ (history : List HistoryEntry) (cur : ℚ),
        (history.filter (fun h => h.status == Status.up)).length < 5 →
        calculateTrend history cur = "→") ∧
    (∀ (history : List HistoryEntry) (cur : ℚ),
        5 ≤ (history.filter (fun h => h.status == Status.up)).length →
        0 ≤ avgRecentOf history →
        ((calculateTrend history cur = "↑" ↔ avgRecentOf history * (115 / 100) < cur) ∧
         (calculateTrend history cur = "↓" ↔ cur < avgRecentOf history * (85 / 100)) ∧
         (calculateTrend history cur = "→" ↔
            (avgRecentOf history * (85 / 100) ≤ cur ∧
             cur ≤ avgRecentOf history * (115 / 100))))) ∧
    calculateTrend hist10 116 = "↑" ∧
    calculateTrend hist10 84 = "↓" ∧
    calculateTrend hist10 100 = "→" := by
  have hlen : ∀ history : List HistoryEntry,
      (recentUps history).length
        = (history.filter (fun h => h.status == Status.up)).length
          - ((history.filter (fun h => h.status == Status.up)).length - 10) := by
    intro history
    simp [recentUps, takeLast]
  refine ⟨?_, ?_, ?_, ?_, ?_⟩
  · intro history cur hlt
    by_cases h5 : history.length < 5
    · simp [calculateTrend, h5]
    · have hr5 : (recentUps history).length < 5 := by
        have := hlen history
        omega
      simp [calculateTrend, h5, hr5]
  · intro history cur h5f havg
    have hfl := List.length_filter_le (fun h => h.status == Status.up) history
    have h5 : ¬ history.length < 5 := by omega
    have hr5 : ¬ (recentUps history).length < 5 := by
      have := hlen history
      omega
    rw [calculateTrend_eval history cur h5 hr5]
    by_cases hgt : avgRecentOf history * (15 / 100) < cur - avgRecentOf history
    · rw [if_pos hgt]
      refine ⟨iff_of_true rfl (by linarith),
              iff_of_false (by decide) ?_,
              iff_of_false (by decide) ?_⟩
      · intro hh
        linarith
      · rintro ⟨_, h2⟩
        linarith
    · rw [if_neg hgt]
      by_cases hlt2 : cur - avgRecentOf history < -(avgRecentOf history * (15 / 100))
      · rw [if_pos hlt2]
        refine ⟨iff_of_false (by decide) (by intro hh; linarith),
                iff_of_true rfl (by linarith),
                iff_of_false (by decide) ?_⟩
        rintro ⟨h1, _⟩
        linarith
      · rw [if_neg hlt2]
        exact ⟨iff_of_false (by decide) (by intro hh; linarith),
               iff_of_false (by decide) (by intro hh; linarith),
               iff_of_true rfl ⟨by linarith, by linarith⟩⟩
  · simp +decide [calculateTrend, recentUps, takeLast, hist10, entUp, List.replicate]
    norm_num
  · simp +decide [calculateTrend, recentUps, takeLast, hist10, entUp, List.replicate]
    norm_num
  · simp +decide [calculateTrend, recentUps, takeLast, hist10, entUp, List.replicate]
    norm_num

/-- Witness for C8: the insufficient-signal case on the empty history and
the threshold case on `hist10`. -/
theorem calculateTrend_thresholds_witness :
    calculateTrend [] 0 = "→" ∧
    (calculateTrend hist10 116 = "↑" ↔ avgRecentOf hist10 * (115 / 100) < 116) :=
  ⟨calculateTrend_thresholds.1 [] 0 (by decide),
   (calculateTrend_thresholds.2.1 hist10 116
      (by simp +decide [hist10, entUp, List.replicate])
      (by norm_num [avgRecentOf, recentUps, takeLast, hist10, entUp, List.replicate])).1⟩

/-! Lemmas about the partition-file model. -/

/-- Sorting a list of file names that is already sorted leaves it unchanged. -/
theorem sortStrings_eq_self : ∀ l : List String,
    List.Pairwise (fun a b => strLeb a b = true) l → sortStrings l = l := by
  intro l hl
  induction l with
  | nil => rfl
  | cons a t ih =>
    have hstep : sortStrings (a :: t) = insertSorted a (sortStrings t) := rfl
    rw [hstep, ih (List.Pairwise.sublist (List.sublist_cons_self a t) hl)]
    cases t with
    | nil => rfl
    | cons b r =>
      have hab : strLeb a b = true := (List.pairwise_cons.mp hl).1 b (by simp)
      simp [insertSorted, hab]

/-- With pairwise-distinct keys, `find?` on a key of the store returns the
pair carrying that key. -/
theorem find?_of_nodup_keys : ∀ (store : HistoryStore) (p : String × List HistoryEntry),
    (store.map Prod.fst).Nodup → p ∈ store →
    store.find? (fun q => q.1 == p.1) = some p := by
  intro store
  induction store with
  | nil => intro p _ hp; simp at hp
  | cons q rest ih =>
    intro p hnd hp
    rw [List.map_cons] at hnd
    have hnd' := List.nodup_cons.mp hnd
    by_cases hq : (q.1 == p.1) = true
    · have hqp : q.1 = p.1 := by simpa using hq
      have hpq : p = q := by
        rcases List.mem_cons.mp hp with hpq | hpr
        · exact hpq
        · exfalso
          apply hnd'.1
          rw [hqp]
          exact List.mem_map_of_mem Prod.fst hpr
      rw [List.find?_cons]
      simp [hq, hpq]
    · have hpr : p ∈ rest := by
        rcases List.mem_cons.mp hp with hpq | hpr
        · exact absurd (by simp [hpq]) hq
        · exact hpr
      have hqf : (q.1 == p.1) = false := by
        simpa using hq
      rw [List.find?_cons]
      simp only [hqf]
      exact ih p hnd'.2 hpr

/-- Mapping before concatenating. -/
theorem concatMap_map (f : α → β) (g : β → List γ) : ∀ l : List α,
    concatMap g (l.map f) = concatMap (fun a => g (f a)) l := by
  intro l
  induction l with
  | nil => rfl
  | cons a t ih => simp [concatMap, ih]

/-- Pointwise-equal functions concatenate equally. -/
theorem concatMap_congr {f g : α → List β} : ∀ l : List α,
    (∀ a ∈ l, f a = g a) → concatMap f l = concatMap g l := by
  intro l
  induction l with
  | nil => intro _; rfl
  | cons a t ih =>
    intro h
    simp only [concatMap]
    rw [h a (by simp), ih (fun b hb => h b (by simp [hb]))]

/-- C6 counterexample input: two monthly partitions. -/
def store2 : HistoryStore :=
  [("2025-01.json", [entUp]), ("2025-02.json", [entDown])]

/-- C6 counterexample: with the January partition holding `entUp` and the
February partition holding `entDown`, `getServiceHistory` returns
`[entDown, entUp]` — the NEWEST partition first — not the chronological
concatenation `[entUp, entDown]` the claim describes. -/
theorem getServiceHistory_not_chronological_cex :
    getServiceHistory store2 = [entDown, entUp] ∧
    ([entDown, entUp] : List HistoryEntry) ≠ [entUp, entDown] := by
  constructor
  · rfl
  · simp [entUp, entDown]

/-- C6 amended: `getServiceHistory` sorts the partition file names and then
reverses them, so it returns the concatenation of the partitions in
reverse chronological partition order — newest partition first — with the
entries inside each partition kept in their stored order. -/
theorem getServiceHistory_newest_partition_first (store : HistoryStore)
    (hnd : (store.map Prod.fst).Nodup)
    (hsort : List.Pairwise (fun a b => strLeb a b = true) (store.map Prod.fst)) :
    getServiceHistory store = concatMap Prod.snd store.reverse := by
  simp only [getServiceHistory]
  rw [sortStrings_eq_self _ hsort, ← List.map_reverse, concatMap_map]
  apply concatMap_congr
  intro p hp
  rw [find?_of_nodup_keys store p hnd (List.mem_reverse.mp hp)]
  rfl

/-- Witness for the amended C6 on the two-partition store. -/
theorem getServiceHistory_newest_partition_first_witness :
    getServiceHistory store2 = concatMap Prod.snd store2.reverse :=
  getServiceHistory_newest_partition_first store2 (by decide) (by decide)

/-- Later `'down'` entry used for the C7 failing input. -/
def entDownLater : HistoryEntry :=
  { timestamp := "2025-01-01T01:10:00.000Z", status := Status.down,
    statusCode := none, responseTime := 45, error := some "timeout" }

/-- C7 failing input: a single partition whose entries are, in stored
chronological order, `entUp`, then `entDown` (00:10), then `entDownLater`
(01:10).  The code's `allHistory.find(s => s.status === 'down')` returns
the chronologically FIRST `'down'` entry, `entDown`, not the most recent
one, `entDownLater`, although the page labels the result "last incident". -/
theorem lastIncident_picks_first_down :
    lastIncident (getServiceHistory [("2025-01.json", [entUp, entDown, entDownLater])])
        = some entDown ∧
    entDown ≠ entDownLater := by
  constructor
  · rfl
  · simp [entDown, entDownLater]

/-- Reading back a store holding a single partition returns that
partition's entries unchanged. -/
theorem getServiceHistory_single (fileName : String) (l : List HistoryEntry) :
    getServiceHistory [(fileName, l)] = l := by
  simp [getServiceHistory, sortStrings, insertSorted, concatMap, List.find?]

/-- The appended entry is always the last element after the cap is applied
(the cap only ever drops from the front). -/
theorem appendHistory_getLast (history : List HistoryEntry) (entry : HistoryEntry) :
    (appendHistory history entry).getLast? = some entry := by
  simp only [appendHistory]
  split_ifs with hc
  · rw [List.drop_append_eq_append_drop]
    have h1 : (history ++ [entry]).length - 4320 - history.length = 0 := by
      simp only [List.length_append, List.length_cons, List.length_nil]
      omega
    rw [h1, List.drop_zero]
    exact List.getLast?_concat _
  · exact List.getLast?_concat _

/-- C9 amended: appending a check outcome via the `saveResults` history
step and reading the partition back yields, as the newest entry, a record
whose `status`, `statusCode`, `responseTime` and `error` equal the
outcome's, but whose `timestamp` is the batch save time `now` — not the
outcome's own `timestamp`. -/
theorem saveResults_roundtrip (result : CheckOutcome) (nowISO fileName : String)
    (prev : List HistoryEntry) :
    (getServiceHistory
        [(fileName, appendHistory prev (mkHistoryEntry result nowISO))]).getLast?
      = some { timestamp := nowISO, status := result.status,
               statusCode := result.statusCode, responseTime := result.responseTime,
               error := result.error } := by
  rw [getServiceHistory_single, appendHistory_getLast]
  rfl

/-- Concrete outcome for the C9 counterexample; its own `timestamp` is
taken at probe completion, seven seconds before the batch save time. -/
def outcomeA : CheckOutcome :=
  { id := "web", name := "Web", url := some "https://example.com", status := Status.up,
    statusCode := some 200, responseTime := 123,
    timestamp := "2025-01-01T00:00:00.000Z", error := none, maintenance := none }

/-- C9 counterexample: writing `outcomeA` with batch time 00:00:07 and
reading the partition back yields an entry whose `timestamp` is the batch
time, which differs from the outcome's recorded `timestamp` (00:00:00) —
so the timestamp is NOT preserved exactly as recorded in the outcome. -/
theorem saveResults_timestamp_not_preserved_cex :
    getServiceHistory [("2025-01.json",
        appendHistory [] (mkHistoryEntry outcomeA "2025-01-01T00:00:07.000Z"))]
      = [mkHistoryEntry outcomeA "2025-01-01T00:00:07.000Z"] ∧
    (mkHistoryEntry outcomeA "2025-01-01T00:00:07.000Z").timestamp ≠ outcomeA.timestamp := by
  constructor
  · rfl
  · decide

end StatusCheck
